import Mathlib

/-!
Parameter resolution and statement building of pg-slow-query-api.

A shallow embedding of `src/db.go`: the pure resolver `extractQueryParams`
and the repository method `PostgresDB.Get`, the latter over an abstract
database handle whose calls are recorded.

Modelling conventions.

* Go's `int` is the 64-bit two's-complement integer of the usual build
  targets.  Values are carried as `Int`; the one arithmetic operation of
  the code that can leave the range, the product on line 73, is reduced
  with `wrapInt`.
* Go strings are carried as `String`.
* An `error` is identified with its message; `nil` is `none`.
* A nil slice and an empty slice are both the empty list.
-/

namespace SlowQuery

/-! ## Machine integers -/

/-- Number of bits of Go's `int`. -/
def intBits : Nat := 64

/-- Smallest value of Go's `int`. -/
def minInt : Int := -(2 ^ (intBits - 1))

/-- Largest value of Go's `int`. -/
def maxInt : Int := 2 ^ (intBits - 1) - 1

/-- Membership in the range of Go's `int`. -/
def isGoInt (x : Int) : Prop := minInt ≤ x ∧ x ≤ maxInt

instance (x : Int) : Decidable (isGoInt x) := by
  unfold isGoInt; exact inferInstance

/-- Two's-complement reduction of a mathematical integer to Go's `int`:
what `*` on `int` leaves after overflow. -/
def wrapInt (x : Int) : Int := (x + 2 ^ (intBits - 1)) % 2 ^ intBits - 2 ^ (intBits - 1)

/-! ## Library functions used by the code -/

/-- An error value, identified by the text its `Error()` method returns. -/
abbrev GoError := String

/-- The rune mapping `unicode.ToLower` restricted to what is fixed without
the Unicode tables: `A`..`Z` go to `a`..`z`, every other rune is left as it
is.  It agrees with `unicode.ToLower` on every ASCII rune. -/
def asciiToLower (c : Char) : Char :=
  if 65 ≤ c.toNat ∧ c.toNat ≤ 90 then Char.ofNat (c.toNat + 32) else c

end SlowQuery

namespace strings

/-- Go's `strings.ToLower`: the string with every rune replaced by its image
under `unicode.ToLower`.  The rune mapping is the parameter `lower`. -/
def ToLower (lower : Char → Char) (s : String) : String :=
  String.mk (s.data.map lower)

end strings

namespace fmt

/-- The verb `%d` applied to an `int`: decimal digits, with a leading minus
sign for a negative value. -/
def decimal (n : Int) : String :=
  if n < 0 then "-" ++ Nat.repr n.natAbs else Nat.repr n.natAbs

end fmt

namespace SlowQuery

/-! ## Constants and types of `db.go` -/

def DefaultLimit : Int := 50

def Select : String := "select"
def Insert : String := "insert"
def Update : String := "update"
def Delete : String := "delete"
def OrderByAsc : String := "asc"
def OrderByDesc : String := "desc"

structure SlowQueryLog where
  Query : String
  TotalExecTime : String
deriving DecidableEq, Repr

structure QueryParams where
  Page : Int
  PageSize : Int
  QueryType : String
  OrderBy : String
deriving DecidableEq, Repr

/-- The five results of `extractQueryParams`, in the order the function
returns them. -/
structure Resolved where
  limit : Int
  offset : Int
  queryType : String
  orderBy : String
  err : Option GoError
deriving DecidableEq, Repr

/-! ## `extractQueryParams` (db.go lines 65-113) -/

/-- Lines 66-69: the limit is the page size, or `DefaultLimit` when the
page size is zero. -/
def resolveLimit (params : QueryParams) : Int :=
  if params.PageSize = 0 then DefaultLimit else params.PageSize

/-- Lines 71-74: the offset is zero unless the page is positive, in which
case it is the `int` product of page and limit. -/
def resolveOffset (params : QueryParams) : Int :=
  if params.Page > 0 then wrapInt (params.Page * resolveLimit params) else 0

/-- Lines 76-95: the first switch.  Returns the filter and the error it
leaves in `err`. -/
def resolveQueryType (lower : Char → Char) (params : QueryParams) :
    String × Option GoError :=
  let s := strings.ToLower lower params.QueryType
  if s = "" then ("", none)
  else if s = Select then (Select, none)
  else if s = Insert then (Insert, none)
  else if s = Update then (Update, none)
  else if s = Delete then (Delete, none)
  else ("", some ("invalid query_type: " ++ params.QueryType))

/-- Lines 97-110: the second switch.  Returns the direction and, when the
default case runs, the error it assigns to `err`. -/
def resolveOrderBy (lower : Char → Char) (params : QueryParams) :
    String × Option GoError :=
  let s := strings.ToLower lower params.OrderBy
  if s = "" then (OrderByDesc, none)
  else if s = OrderByDesc then (OrderByDesc, none)
  else if s = OrderByAsc then (OrderByAsc, none)
  else ("", some ("invalid order_by: " ++ params.QueryType))

/-- The function `extractQueryParams`.  The variable `err` is assigned by the
default case of the first switch and assigned again by the default case of
the second, so the second error replaces the first. -/
def extractQueryParams (lower : Char → Char) (params : QueryParams) : Resolved :=
  let limit := resolveLimit params
  let offset := resolveOffset params
  let qt := resolveQueryType lower params
  let ob := resolveOrderBy lower params
  let err := match ob.2 with
    | some e => some e
    | none => qt.2
  ⟨limit, offset, qt.1, ob.1, err⟩

/-! ## The database handle -/

/-- A value passed in the variadic argument list of `Query` or `Exec`. -/
inductive Arg where
  | str (s : String)
  | int (n : Int)
deriving DecidableEq, Repr

/-- A call made on the database handle `db.conn`. -/
inductive DbCall where
  | Query (sql : String) (args : List Arg)
  | Exec (sql : String) (args : List Arg)
deriving DecidableEq, Repr

/-- What one call of `rows.Scan(&log.Query, &log.TotalExecTime)` does to a
freshly declared `log`: the two fields it leaves and the error it returns. -/
structure ScanOutcome where
  Query : String
  TotalExecTime : String
  err : Option GoError
deriving DecidableEq, Repr

/-- A result cursor `pgx.Rows`: `Next` reports true once for each element of
`scans` and false afterwards, the `Scan` made after the i-th `Next` behaves
as the i-th element says, and `Err` returns `err`. -/
structure Rows where
  scans : List ScanOutcome
  err : Option GoError
deriving DecidableEq, Repr

/-- The behaviour of `db.conn.Query`: from the statement text and the bound
arguments to a cursor or an error. -/
abbrev Conn := String → List Arg → Except GoError Rows

/-- A successful scan of a two-column row: the columns land in the two
fields and no error is returned. -/
def scanOk (row : String × String) : ScanOutcome := ⟨row.1, row.2, none⟩

/-- The cursor over the given rows, every scan succeeding, with no final
error. -/
def rowsOf (rows : List (String × String)) : Rows := ⟨rows.map scanOk, none⟩

/-! ## `PostgresDB.Get` (db.go lines 115-148) -/

/-- What `Get` returns, together with the calls it made on the handle. -/
structure GetResult where
  records : List SlowQueryLog
  err : Option GoError
  calls : List DbCall
deriving DecidableEq, Repr

/-- Lines 120-127: the statement text built from the resolved values. -/
def buildStmt (limit offset : Int) (queryType orderBy : String) : String :=
  let sqlStmt := "SELECT query, total_exec_time FROM public.pg_stat_statements"
  let sqlStmt := if queryType ≠ "" then
      sqlStmt ++ (" WHERE query ILIKE '" ++ queryType ++ "%'") else sqlStmt
  let sqlStmt := if orderBy ≠ "" then
      sqlStmt ++ (" ORDER BY total_exec_time " ++ orderBy) else sqlStmt
  sqlStmt ++ (" LIMIT " ++ fmt.decimal limit ++ " OFFSET " ++ fmt.decimal offset)

/-- Lines 135-140: the loop over the cursor.  Each iteration declares a fresh
`log`, calls `Scan` on its two fields, discards what `Scan` returns and
appends `log` to `resp`. -/
def scanLoop (scans : List ScanOutcome) (resp : List SlowQueryLog) : List SlowQueryLog :=
  match scans with
  | [] => resp
  | s :: rest => scanLoop rest (resp ++ [⟨s.Query, s.TotalExecTime⟩])

/-- The method `PostgresDB.Get` over the handle `conn`. -/
def Get (lower : Char → Char) (conn : Conn) (params : QueryParams) : GetResult :=
  let r := extractQueryParams lower params
  match r.err with
  | some e => ⟨[], some e, []⟩
  | none =>
    let sqlStmt := buildStmt r.limit r.offset r.queryType r.orderBy
    match conn sqlStmt [] with
    | Except.error e => ⟨[], some e, [DbCall.Query sqlStmt []]⟩
    | Except.ok rows =>
      let resp := scanLoop rows.scans []
      match rows.err with
      | some e => ⟨[], some e, [DbCall.Query sqlStmt []]⟩
      | none => ⟨resp, none, [DbCall.Query sqlStmt []]⟩

/-- A handle whose `Query` always answers with the given cursor. -/
def connReturning (rows : Rows) : Conn := fun _ _ => Except.ok rows

/-- A handle whose `Query` always fails with the given error. -/
def connFailing (e : GoError) : Conn := fun _ _ => Except.error e

/-- The number a list of decimal digit characters denotes, most significant
digit first.  Used to read back what `fmt.decimal` prints. -/
def digitsValue (cs : List Char) : Nat :=
  cs.foldl (fun a c => 10 * a + (c.toNat - 48)) 0

/-- The part of the statement text of `buildStmt` that precedes the digits
of the limit: lines 120-126 followed by the constant " LIMIT " of line
127. -/
def stmtHead (queryType orderBy : String) : String :=
  let sqlStmt := "SELECT query, total_exec_time FROM public.pg_stat_statements"
  let sqlStmt := if queryType ≠ "" then
      sqlStmt ++ (" WHERE query ILIKE '" ++ queryType ++ "%'") else sqlStmt
  let sqlStmt := if orderBy ≠ "" then
      sqlStmt ++ (" ORDER BY total_exec_time " ++ orderBy) else sqlStmt
  sqlStmt ++ " LIMIT "

/-! ## Auxiliary facts -/

theorem wrapInt_of_isGoInt (x : Int) (h : isGoInt x) : wrapInt x = x := by
  unfold isGoInt minInt maxInt intBits at h
  unfold wrapInt intBits
  norm_num at h ⊢
  omega

theorem ToLower_eq_empty_iff (lower : Char → Char) (s : String) :
    strings.ToLower lower s = "" ↔ s = "" := by
  unfold strings.ToLower
  rw [String.ext_iff, String.ext_iff]
  simp

theorem scanLoop_eq (scans : List ScanOutcome) (resp : List SlowQueryLog) :
    scanLoop scans resp = resp ++ scans.map (fun s => ⟨s.Query, s.TotalExecTime⟩) := by
  induction scans generalizing resp with
  | nil => simp [scanLoop]
  | cons s rest ih => simp [scanLoop, ih]

/-- The first switch leaves no error exactly on the five accepted values,
and then the filter is the lower-cased query type. -/
theorem resolveQueryType_of_mem (lower : Char → Char) (p : QueryParams)
    (h : strings.ToLower lower p.QueryType ∈ ["", "select", "insert", "update", "delete"]) :
    resolveQueryType lower p = (strings.ToLower lower p.QueryType, none) := by
  simp only [List.mem_cons, List.mem_singleton, List.not_mem_nil, or_false] at h
  unfold resolveQueryType
  rcases h with h | h | h | h | h <;> simp [h, Select, Insert, Update, Delete]

theorem resolveQueryType_of_not_mem (lower : Char → Char) (p : QueryParams)
    (h : strings.ToLower lower p.QueryType ∉ ["", "select", "insert", "update", "delete"]) :
    resolveQueryType lower p = ("", some ("invalid query_type: " ++ p.QueryType)) := by
  simp only [List.mem_cons, List.mem_singleton, List.not_mem_nil, or_false, not_or] at h
  unfold resolveQueryType
  simp [h, Select, Insert, Update, Delete]

/-- The second switch leaves no error exactly on the three accepted values. -/
theorem resolveOrderBy_of_mem (lower : Char → Char) (p : QueryParams)
    (h : strings.ToLower lower p.OrderBy ∈ ["", "asc", "desc"]) :
    resolveOrderBy lower p =
      (if strings.ToLower lower p.OrderBy = "" then "desc"
        else strings.ToLower lower p.OrderBy, none) := by
  simp only [List.mem_cons, List.mem_singleton, List.not_mem_nil, or_false] at h
  unfold resolveOrderBy
  rcases h with h | h | h <;> simp [h, OrderByAsc, OrderByDesc]

/-- The default case of the second switch formats `params.QueryType`. -/
theorem resolveOrderBy_of_not_mem (lower : Char → Char) (p : QueryParams)
    (h : strings.ToLower lower p.OrderBy ∉ ["", "asc", "desc"]) :
    resolveOrderBy lower p = ("", some ("invalid order_by: " ++ p.QueryType)) := by
  simp only [List.mem_cons, List.mem_singleton, List.not_mem_nil, or_false, not_or] at h
  unfold resolveOrderBy
  simp [h, OrderByAsc, OrderByDesc]

/-- A resolution without error went through accepting cases of both
switches. -/
theorem mem_of_err_none (lower : Char → Char) (p : QueryParams)
    (h : (extractQueryParams lower p).err = none) :
    strings.ToLower lower p.QueryType ∈ ["", "select", "insert", "update", "delete"] ∧
    strings.ToLower lower p.OrderBy ∈ ["", "asc", "desc"] := by
  by_cases ho : strings.ToLower lower p.OrderBy ∈ ["", "asc", "desc"]
  · by_cases hq : strings.ToLower lower p.QueryType ∈ ["", "select", "insert", "update", "delete"]
    · exact ⟨hq, ho⟩
    · simp [extractQueryParams, resolveOrderBy_of_mem lower p ho,
        resolveQueryType_of_not_mem lower p hq] at h
  · simp [extractQueryParams, resolveOrderBy_of_not_mem lower p ho] at h

/-- The resolved tuple on accepted values. -/
theorem extractQueryParams_of_mem (lower : Char → Char) (p : QueryParams)
    (hq : strings.ToLower lower p.QueryType ∈ ["", "select", "insert", "update", "delete"])
    (ho : strings.ToLower lower p.OrderBy ∈ ["", "asc", "desc"]) :
    extractQueryParams lower p =
      ⟨resolveLimit p, resolveOffset p, strings.ToLower lower p.QueryType,
        if strings.ToLower lower p.OrderBy = "" then "desc"
          else strings.ToLower lower p.OrderBy, none⟩ := by
  simp [extractQueryParams, resolveOrderBy_of_mem lower p ho,
    resolveQueryType_of_mem lower p hq]

/-- After a resolution without error the filter is "" or one of the four
verbs and the direction is "asc" or "desc". -/
theorem filter_direction_of_err_none (lower : Char → Char) (p : QueryParams)
    (h : (extractQueryParams lower p).err = none) :
    (extractQueryParams lower p).queryType ∈ ["", "select", "insert", "update", "delete"] ∧
    (extractQueryParams lower p).orderBy ∈ ["asc", "desc"] := by
  obtain ⟨hq, ho⟩ := mem_of_err_none lower p h
  rw [extractQueryParams_of_mem lower p hq ho]
  refine ⟨hq, ?_⟩
  simp only [List.mem_cons, List.mem_singleton, List.not_mem_nil, or_false] at ho
  rcases ho with ho | ho | ho <;> simp [ho]

/-- Whenever the order value is rejected, the error text carries the query
type, whatever the first switch did. -/
theorem extractQueryParams_order_by_err (lower : Char → Char) (p : QueryParams)
    (h : strings.ToLower lower p.OrderBy ∉ ["", "asc", "desc"]) :
    (extractQueryParams lower p).err = some ("invalid order_by: " ++ p.QueryType) := by
  simp [extractQueryParams, resolveOrderBy_of_not_mem lower p h]

/-! ## Claims about `extractQueryParams` -/

/-- C1 (the code departs from the claim): with QueryType "select" and
OrderBy "bogus" the resolver fails, and its message is "invalid order_by: "
followed by the query type "select", not by the rejected order value
"bogus". -/
theorem C1_order_by_message_carries_query_type :
    (extractQueryParams asciiToLower ⟨0, 0, "select", "bogus"⟩).err
        = some "invalid order_by: select" ∧
    (extractQueryParams asciiToLower ⟨0, 0, "select", "bogus"⟩).err
        ≠ some ("invalid order_by: " ++ "bogus") := by
  decide

/-- C2, counterexample: a negative page size resolves without error to a
negative limit, and a page whose product with the limit leaves the range of
`int` resolves without error to a negative offset. -/
theorem C2_counterexample :
    (isGoInt 0 ∧ isGoInt (-1) ∧
      (extractQueryParams asciiToLower ⟨0, -1, "", ""⟩).err = none ∧
      ¬ 0 < (extractQueryParams asciiToLower ⟨0, -1, "", ""⟩).limit) ∧
    (isGoInt 4611686018427387904 ∧ isGoInt 2 ∧
      (extractQueryParams asciiToLower ⟨4611686018427387904, 2, "", ""⟩).err = none ∧
      ¬ 0 ≤ (extractQueryParams asciiToLower ⟨4611686018427387904, 2, "", ""⟩).offset) := by
  decide

/-- C2, amended: on every QueryParams that resolves without error the filter
is one of "", "select", "insert", "update", "delete" and the direction is
"asc" or "desc"; the limit is positive exactly when the page size is not
negative; and the offset is not negative when the page size is not negative
and either the page is not positive or page times limit does not exceed the
largest `int`. -/
theorem C2_resolved_valid (lower : Char → Char) (p : QueryParams)
    (h : (extractQueryParams lower p).err = none) :
    (extractQueryParams lower p).queryType ∈ ["", "select", "insert", "update", "delete"] ∧
    (extractQueryParams lower p).orderBy ∈ ["asc", "desc"] ∧
    (0 < (extractQueryParams lower p).limit ↔ 0 ≤ p.PageSize) ∧
    (0 ≤ p.PageSize →
      (p.Page ≤ 0 ∨ p.Page * (extractQueryParams lower p).limit ≤ maxInt) →
      0 ≤ (extractQueryParams lower p).offset) := by
  obtain ⟨hq, ho⟩ := mem_of_err_none lower p h
  rw [extractQueryParams_of_mem lower p hq ho]
  refine ⟨hq, ?_, ?_, ?_⟩
  · simp only [List.mem_cons, List.mem_singleton, List.not_mem_nil, or_false] at ho
    rcases ho with ho | ho | ho <;> simp [ho]
  · show 0 < resolveLimit p ↔ 0 ≤ p.PageSize
    unfold resolveLimit DefaultLimit
    split_ifs with hz <;> omega
  · intro hs hp
    show 0 ≤ resolveOffset p
    have hl : 0 < resolveLimit p := by
      unfold resolveLimit DefaultLimit
      split_ifs with hz <;> omega
    unfold resolveOffset
    split_ifs with hpos
    · have hprod : p.Page * resolveLimit p ≤ maxInt := by
        rcases hp with hp | hp
        · omega
        · exact hp
      have hnn : 0 ≤ p.Page * resolveLimit p := by positivity
      rw [wrapInt_of_isGoInt _ ⟨by unfold minInt intBits; norm_num; omega, hprod⟩]
      exact hnn
    · exact le_refl 0

/-- C2, witness: page 5, page size 2, "select", "asc". -/
theorem C2_resolved_valid_witness :
    (extractQueryParams asciiToLower ⟨5, 2, "select", "asc"⟩).err = none ∧
    (extractQueryParams asciiToLower ⟨5, 2, "select", "asc"⟩).queryType
      ∈ ["", "select", "insert", "update", "delete"] ∧
    (extractQueryParams asciiToLower ⟨5, 2, "select", "asc"⟩).orderBy ∈ ["asc", "desc"] ∧
    0 < (extractQueryParams asciiToLower ⟨5, 2, "select", "asc"⟩).limit ∧
    0 ≤ (extractQueryParams asciiToLower ⟨5, 2, "select", "asc"⟩).offset :=
  have h := C2_resolved_valid asciiToLower ⟨5, 2, "select", "asc"⟩ (by decide)
  ⟨by decide, h.1, h.2.1, h.2.2.1.mpr (by decide),
    h.2.2.2 (by decide) (Or.inr (by decide))⟩

/-- C3, counterexample: page 3037000500 with page size 3037000500, both
positive values of `int`, resolves to the offset -9223372036709301616, which
is not the product 9223372037000250000. -/
theorem C3_counterexample :
    isGoInt 3037000500 ∧ (0 : Int) < 3037000500 ∧
    (extractQueryParams asciiToLower ⟨3037000500, 3037000500, "", ""⟩).offset
      = -9223372036709301616 ∧
    (extractQueryParams asciiToLower ⟨3037000500, 3037000500, "", ""⟩).offset
      ≠ 3037000500 * 3037000500 := by
  decide

/-- C3, amended: the limit is 50 when the page size is 0 and the page size
otherwise; the offset is 0 when the page is not positive and otherwise the
product of page and limit reduced to the 64-bit two's-complement `int`; page
0 with page size 0 gives limit 50 and offset 0; and for positive page and
page size whose product does not exceed the largest `int`, the offset is
the exact product. -/
theorem C3_pagination_arithmetic (lower : Char → Char) (p : QueryParams) :
    (extractQueryParams lower p).limit = (if p.PageSize = 0 then 50 else p.PageSize) ∧
    (extractQueryParams lower p).offset =
      (if p.Page ≤ 0 then 0 else wrapInt (p.Page * (extractQueryParams lower p).limit)) ∧
    (p.Page = 0 → p.PageSize = 0 →
      (extractQueryParams lower p).limit = 50 ∧ (extractQueryParams lower p).offset = 0) ∧
    (0 < p.Page → 0 < p.PageSize → p.Page * p.PageSize ≤ maxInt →
      (extractQueryParams lower p).offset = p.Page * p.PageSize) := by
  have hlim : (extractQueryParams lower p).limit = resolveLimit p := rfl
  have hoff : (extractQueryParams lower p).offset = resolveOffset p := rfl
  rw [hlim, hoff]
  refine ⟨rfl, ?_, ?_, ?_⟩
  · unfold resolveOffset
    by_cases hp : p.Page ≤ 0
    · rw [if_pos hp, if_neg (by omega)]
    · rw [if_neg hp, if_pos (by omega)]
  · intro hp hs
    simp [resolveOffset, resolveLimit, DefaultLimit, hp, hs]
  · intro hp hs hprod
    have hne : p.PageSize ≠ 0 := by omega
    have hnn : 0 ≤ p.Page * p.PageSize := by positivity
    simp only [resolveOffset, resolveLimit, hne, if_false, gt_iff_lt, hp, if_true]
    exact wrapInt_of_isGoInt _ ⟨by unfold minInt intBits; norm_num; omega, hprod⟩

/-- C3, witness: page 5 with page size 2 gives offset 10, and page 0 with
page size 0 gives limit 50 and offset 0. -/
theorem C3_pagination_arithmetic_witness :
    (extractQueryParams asciiToLower ⟨5, 2, "", ""⟩).offset = 5 * 2 ∧
    (extractQueryParams asciiToLower ⟨0, 0, "", ""⟩).limit = 50 ∧
    (extractQueryParams asciiToLower ⟨0, 0, "", ""⟩).offset = 0 :=
  ⟨(C3_pagination_arithmetic asciiToLower ⟨5, 2, "", ""⟩).2.2.2
      (by decide) (by decide) (by decide),
    (C3_pagination_arithmetic asciiToLower ⟨0, 0, "", ""⟩).2.2.1 rfl rfl⟩

/-- C4: when the lower-cased query type is not empty and is none of
"select", "insert", "update", "delete", and the lower-cased order value is
"", "asc" or "desc", the resolver returns the error whose message is
"invalid query_type: " followed by the query type as supplied. -/
theorem C4_query_type_error (lower : Char → Char) (p : QueryParams)
    (hne : strings.ToLower lower p.QueryType ≠ "")
    (hq : strings.ToLower lower p.QueryType ∉ ["select", "insert", "update", "delete"])
    (ho : strings.ToLower lower p.OrderBy ∈ ["", "asc", "desc"]) :
    (extractQueryParams lower p).err = some ("invalid query_type: " ++ p.QueryType) := by
  have hq' : strings.ToLower lower p.QueryType ∉
      ["", "select", "insert", "update", "delete"] := by
    intro hmem
    rcases List.mem_cons.mp hmem with h | h
    · exact hne h
    · exact hq h
  simp [extractQueryParams, resolveOrderBy_of_mem lower p ho,
    resolveQueryType_of_not_mem lower p hq']

/-- C4, witness: the query type "bogus" gives "invalid query_type: bogus". -/
theorem C4_query_type_error_witness :
    (extractQueryParams asciiToLower ⟨0, 0, "bogus", ""⟩).err
      = some "invalid query_type: bogus" :=
  C4_query_type_error asciiToLower ⟨0, 0, "bogus", ""⟩ (by decide) (by decide) (by decide)

/-- C8: when the lower-cased query type is one of "", "select", "insert",
"update", "delete" and the lower-cased order value is one of "", "asc",
"desc", the resolver returns no error, the filter is the lower-cased query
type, and the direction is "desc" when the order value is empty and the
lower-cased order value otherwise. -/
theorem C8_case_insensitive_normalisation (lower : Char → Char) (p : QueryParams)
    (hq : strings.ToLower lower p.QueryType ∈ ["", "select", "insert", "update", "delete"])
    (ho : strings.ToLower lower p.OrderBy ∈ ["", "asc", "desc"]) :
    (extractQueryParams lower p).err = none ∧
    (extractQueryParams lower p).queryType = strings.ToLower lower p.QueryType ∧
    (extractQueryParams lower p).orderBy =
      (if p.OrderBy = "" then "desc" else strings.ToLower lower p.OrderBy) := by
  rw [extractQueryParams_of_mem lower p hq ho]
  refine ⟨rfl, rfl, ?_⟩
  show (if strings.ToLower lower p.OrderBy = "" then "desc"
      else strings.ToLower lower p.OrderBy) = _
  by_cases he : p.OrderBy = ""
  · rw [if_pos ((ToLower_eq_empty_iff lower p.OrderBy).mpr he), if_pos he]
  · rw [if_neg (fun h => he ((ToLower_eq_empty_iff lower p.OrderBy).mp h)), if_neg he]

/-- C8, witness: "SELECT", "Select" and "select" all resolve to the filter
"select"; the empty order value resolves to "desc" and "ASC" to "asc". -/
theorem C8_case_insensitive_normalisation_witness :
    ((extractQueryParams asciiToLower ⟨0, 0, "SELECT", ""⟩).err = none ∧
      (extractQueryParams asciiToLower ⟨0, 0, "SELECT", ""⟩).queryType = "select" ∧
      (extractQueryParams asciiToLower ⟨0, 0, "SELECT", ""⟩).orderBy = "desc") ∧
    ((extractQueryParams asciiToLower ⟨0, 0, "Select", "ASC"⟩).err = none ∧
      (extractQueryParams asciiToLower ⟨0, 0, "Select", "ASC"⟩).queryType = "select" ∧
      (extractQueryParams asciiToLower ⟨0, 0, "Select", "ASC"⟩).orderBy = "asc") ∧
    ((extractQueryParams asciiToLower ⟨0, 0, "select", "desc"⟩).err = none ∧
      (extractQueryParams asciiToLower ⟨0, 0, "select", "desc"⟩).queryType = "select" ∧
      (extractQueryParams asciiToLower ⟨0, 0, "select", "desc"⟩).orderBy = "desc") :=
  ⟨C8_case_insensitive_normalisation asciiToLower ⟨0, 0, "SELECT", ""⟩
      (by decide) (by decide),
    C8_case_insensitive_normalisation asciiToLower ⟨0, 0, "Select", "ASC"⟩
      (by decide) (by decide),
    C8_case_insensitive_normalisation asciiToLower ⟨0, 0, "select", "desc"⟩
      (by decide) (by decide)⟩

/-! ## Auxiliary facts about `Get` -/

/-- A resolution without error is followed by exactly one call on the
handle: `Query` with the built statement and an empty argument list. -/
theorem Get_calls_of_resolved (lower : Char → Char) (conn : Conn) (p : QueryParams)
    (h : (extractQueryParams lower p).err = none) :
    (Get lower conn p).calls =
      [DbCall.Query (buildStmt (extractQueryParams lower p).limit
        (extractQueryParams lower p).offset (extractQueryParams lower p).queryType
        (extractQueryParams lower p).orderBy) []] := by
  unfold Get
  simp only [h]
  split
  · rfl
  · split <;> rfl

/-- An error of the resolver is returned as it is, and nothing is called. -/
theorem Get_of_resolve_error (lower : Char → Char) (conn : Conn) (p : QueryParams)
    (e : GoError) (h : (extractQueryParams lower p).err = some e) :
    Get lower conn p = ⟨[], some e, []⟩ := by
  simp [Get, h]

/-- An error of the `Query` call is returned as it is, with no records. -/
theorem Get_of_query_error (lower : Char → Char) (conn : Conn) (p : QueryParams) (e : GoError)
    (h : (extractQueryParams lower p).err = none)
    (hc : conn (buildStmt (extractQueryParams lower p).limit
        (extractQueryParams lower p).offset (extractQueryParams lower p).queryType
        (extractQueryParams lower p).orderBy) [] = Except.error e) :
    (Get lower conn p).records = [] ∧ (Get lower conn p).err = some e := by
  simp [Get, h, hc]

/-- The final error of the cursor is returned as it is, with no records. -/
theorem Get_of_rows_error (lower : Char → Char) (conn : Conn) (p : QueryParams)
    (rows : Rows) (e : GoError)
    (h : (extractQueryParams lower p).err = none)
    (hc : conn (buildStmt (extractQueryParams lower p).limit
        (extractQueryParams lower p).offset (extractQueryParams lower p).queryType
        (extractQueryParams lower p).orderBy) [] = Except.ok rows)
    (he : rows.err = some e) :
    (Get lower conn p).records = [] ∧ (Get lower conn p).err = some e := by
  simp [Get, h, hc, he]

/-- Without any error the records are the scanned rows in cursor order. -/
theorem Get_of_rows_ok (lower : Char → Char) (conn : Conn) (p : QueryParams) (rows : Rows)
    (h : (extractQueryParams lower p).err = none)
    (hc : conn (buildStmt (extractQueryParams lower p).limit
        (extractQueryParams lower p).offset (extractQueryParams lower p).queryType
        (extractQueryParams lower p).orderBy) [] = Except.ok rows)
    (he : rows.err = none) :
    (Get lower conn p).records = rows.scans.map (fun s => ⟨s.Query, s.TotalExecTime⟩) ∧
    (Get lower conn p).err = none := by
  simp [Get, h, hc, he, scanLoop_eq]

/-- Records and error never come together. -/
theorem Get_records_of_err (lower : Char → Char) (conn : Conn) (p : QueryParams)
    (h : (Get lower conn p).err ≠ none) : (Get lower conn p).records = [] := by
  cases h1 : (extractQueryParams lower p).err with
  | some e => rw [Get_of_resolve_error lower conn p e h1]
  | none =>
    cases h2 : conn (buildStmt (extractQueryParams lower p).limit
        (extractQueryParams lower p).offset (extractQueryParams lower p).queryType
        (extractQueryParams lower p).orderBy) [] with
    | error e => exact (Get_of_query_error lower conn p e h1 h2).1
    | ok rows =>
      cases h3 : rows.err with
      | some e => exact (Get_of_rows_error lower conn p rows e h1 h2 h3).1
      | none => exact absurd (Get_of_rows_ok lower conn p rows h1 h2 h3).2 h

/-! ## Claims about `Get` -/

/-- C5: for every QueryParams that resolves without error, `Get` makes one
`Query` call whose statement text is the fixed SELECT, then the WHERE clause
on the filter when the filter is not empty, then ORDER BY with the
direction, then LIMIT and OFFSET in decimal; the filter is "" or one of the
four verbs and the direction is "asc" or "desc". -/
theorem C5_statement_text (lower : Char → Char) (conn : Conn) (p : QueryParams)
    (h : (extractQueryParams lower p).err = none) :
    (Get lower conn p).calls =
      [DbCall.Query
        ("SELECT query, total_exec_time FROM public.pg_stat_statements"
          ++ (if (extractQueryParams lower p).queryType = "" then ""
              else " WHERE query ILIKE '" ++ (extractQueryParams lower p).queryType ++ "%'")
          ++ " ORDER BY total_exec_time " ++ (extractQueryParams lower p).orderBy
          ++ " LIMIT " ++ fmt.decimal (extractQueryParams lower p).limit
          ++ " OFFSET " ++ fmt.decimal (extractQueryParams lower p).offset) []] ∧
    (extractQueryParams lower p).queryType ∈ ["", "select", "insert", "update", "delete"] ∧
    (extractQueryParams lower p).orderBy ∈ ["asc", "desc"] := by
  have hv := filter_direction_of_err_none lower p h
  refine ⟨?_, hv.1, hv.2⟩
  rw [Get_calls_of_resolved lower conn p h]
  have hob : (extractQueryParams lower p).orderBy ≠ "" := by
    have := hv.2
    simp only [List.mem_cons, List.mem_singleton, List.not_mem_nil, or_false] at this
    rcases this with h1 | h1 <;> rw [h1] <;> decide
  by_cases hqt : (extractQueryParams lower p).queryType = ""
  · simp only [buildStmt, hqt, hob, ne_eq, not_true_eq_false, not_false_eq_true, if_true,
      if_false, String.append_assoc, String.empty_append]
  · simp only [buildStmt, hqt, hob, ne_eq, not_true_eq_false, not_false_eq_true, if_true,
      if_false, String.append_assoc]

/-- C5, witness: no parameters, and page 5, page size 2, "select", "asc". -/
theorem C5_statement_text_witness :
    (Get asciiToLower (connReturning (rowsOf [])) ⟨0, 0, "", ""⟩).calls =
      [DbCall.Query ("SELECT query, total_exec_time FROM public.pg_stat_statements"
        ++ " ORDER BY total_exec_time desc LIMIT 50 OFFSET 0") []] ∧
    (Get asciiToLower (connReturning (rowsOf [])) ⟨5, 2, "select", "asc"⟩).calls =
      [DbCall.Query ("SELECT query, total_exec_time FROM public.pg_stat_statements"
        ++ " WHERE query ILIKE 'select%' ORDER BY total_exec_time asc LIMIT 2 OFFSET 10")
        []] :=
  ⟨(C5_statement_text asciiToLower (connReturning (rowsOf [])) ⟨0, 0, "", ""⟩
      (by decide)).1.trans (by decide),
    (C5_statement_text asciiToLower (connReturning (rowsOf [])) ⟨5, 2, "select", "asc"⟩
      (by decide)).1.trans (by decide)⟩

/-! ## The statement text determines the resolved values -/

theorem digitChar_value (k : Nat) (h : k < 10) : (Nat.digitChar k).toNat - 48 = k := by
  interval_cases k <;> rfl

theorem digitChar_isDigit (k : Nat) (h : k < 10) : (Nat.digitChar k).isDigit = true := by
  interval_cases k <;> rfl

theorem toDigitsCore_append (fuel n : Nat) (ds : List Char) :
    Nat.toDigitsCore 10 fuel n ds = Nat.toDigitsCore 10 fuel n [] ++ ds := by
  induction fuel generalizing n ds with
  | zero => simp [Nat.toDigitsCore]
  | succ fuel ih =>
    simp only [Nat.toDigitsCore]
    split_ifs with h
    · simp
    · rw [ih (n / 10) (Nat.digitChar (n % 10) :: ds), ih (n / 10) [Nat.digitChar (n % 10)]]
      simp

theorem digitsValue_append_singleton (cs : List Char) (c : Char) :
    digitsValue (cs ++ [c]) = 10 * digitsValue cs + (c.toNat - 48) := by
  simp [digitsValue, List.foldl_append]

theorem digitsValue_toDigitsCore (fuel n : Nat) (h : n < fuel) :
    digitsValue (Nat.toDigitsCore 10 fuel n []) = n := by
  induction fuel generalizing n with
  | zero => omega
  | succ fuel ih =>
    simp only [Nat.toDigitsCore]
    split_ifs with h0
    · have hlt : n < 10 := by omega
      have hmod : n % 10 = n := Nat.mod_eq_of_lt hlt
      rw [hmod]
      simp [digitsValue, digitChar_value n hlt]
    · rw [toDigitsCore_append, digitsValue_append_singleton,
        ih (n / 10) (by omega), digitChar_value _ (Nat.mod_lt _ (by decide))]
      omega

theorem toDigitsCore_isDigit (fuel n : Nat) (ds : List Char)
    (hds : ∀ c ∈ ds, c.isDigit = true) :
    ∀ c ∈ Nat.toDigitsCore 10 fuel n ds, c.isDigit = true := by
  induction fuel generalizing n ds with
  | zero => simpa [Nat.toDigitsCore] using hds
  | succ fuel ih =>
    have hd : ∀ c ∈ Nat.digitChar (n % 10) :: ds, c.isDigit = true := by
      intro c hc
      rcases List.mem_cons.mp hc with hc | hc
      · rw [hc]; exact digitChar_isDigit _ (Nat.mod_lt _ (by decide))
      · exact hds c hc
    simp only [Nat.toDigitsCore]
    split_ifs with h0
    · exact hd
    · exact ih (n / 10) _ hd

/-- Two naturals with the same decimal text are equal. -/
theorem repr_injective (a b : Nat) (h : Nat.repr a = Nat.repr b) : a = b := by
  have hd : Nat.toDigits 10 a = Nat.toDigits 10 b := by
    have := congrArg String.data h
    simpa [Nat.repr, List.asString] using this
  have ha := digitsValue_toDigitsCore (a + 1) a (by omega)
  have hb := digitsValue_toDigitsCore (b + 1) b (by omega)
  unfold Nat.toDigits at hd
  rw [hd] at ha
  omega

theorem repr_isDigit (a : Nat) : ∀ c ∈ (Nat.repr a).data, c.isDigit = true := by
  have := toDigitsCore_isDigit (a + 1) a [] (by simp)
  simpa [Nat.repr, List.asString, Nat.toDigits] using this

/-- The text `%d` prints contains no blank. -/
theorem decimal_no_blank (n : Int) : ' ' ∉ (fmt.decimal n).data := by
  intro hmem
  unfold fmt.decimal at hmem
  split_ifs at hmem with hn
  · rw [String.data_append] at hmem
    rcases List.mem_append.mp hmem with hc | hc
    · revert hc; decide
    · exact absurd (repr_isDigit _ _ hc) (by decide)
  · exact absurd (repr_isDigit _ _ hmem) (by decide)

/-- Two values of `int` that `%d` prints alike are equal. -/
theorem decimal_injective (a b : Int) (h : fmt.decimal a = fmt.decimal b) : a = b := by
  have hminus : ∀ (m k : Nat), "-" ++ Nat.repr m ≠ Nat.repr k := by
    intro m k he
    have hmem : '-' ∈ (Nat.repr k).data := by
      rw [← he, String.data_append]
      exact List.mem_append_left _ (by decide)
    exact absurd (repr_isDigit _ _ hmem) (by decide)
  unfold fmt.decimal at h
  split_ifs at h with ha hb hb
  · have hd := congrArg String.data h
    rw [String.data_append, String.data_append] at hd
    have hr : Nat.repr a.natAbs = Nat.repr b.natAbs :=
      String.ext (List.append_cancel_left hd)
    have := repr_injective _ _ hr
    omega
  · exact absurd h (hminus _ _)
  · exact absurd h.symm (hminus _ _)
  · have := repr_injective _ _ h
    omega

/-- Two lists that agree after being extended agree on their common
length. -/
theorem take_eq_of_append_eq {α : Type} (a b x y : List α) (h : a ++ x = b ++ y) :
    a.take (min a.length b.length) = b.take (min a.length b.length) := by
  have := congrArg (List.take (min a.length b.length)) h
  rwa [List.take_append_of_le_length (min_le_left _ _),
    List.take_append_of_le_length (min_le_right _ _)] at this

/-- Splitting at the first occurrence of a separator is unambiguous. -/
theorem append_sep_inj {α : Type} (s : α) (l₁ l₂ r₁ r₂ : List α)
    (h₁ : s ∉ l₁) (h₂ : s ∉ l₂) (h : l₁ ++ s :: r₁ = l₂ ++ s :: r₂) :
    l₁ = l₂ ∧ r₁ = r₂ := by
  induction l₁ generalizing l₂ with
  | nil =>
    cases l₂ with
    | nil => simpa using h
    | cons b l₂ =>
      simp only [List.nil_append, List.cons_append, List.cons.injEq] at h
      exact absurd (h.1 ▸ List.mem_cons_self _ _) h₂
  | cons a l₁ ih =>
    cases l₂ with
    | nil =>
      simp only [List.nil_append, List.cons_append, List.cons.injEq] at h
      exact absurd (h.1 ▸ List.mem_cons_self _ _) h₁
    | cons b l₂ =>
      simp only [List.cons_append, List.cons.injEq] at h
      obtain ⟨hl, hr⟩ := ih l₂ (fun hm => h₁ (List.mem_cons_of_mem _ hm))
        (fun hm => h₂ (List.mem_cons_of_mem _ hm)) h.2
      exact ⟨by rw [h.1, hl], hr⟩

theorem buildStmt_eq_stmtHead (limit offset : Int) (queryType orderBy : String) :
    buildStmt limit offset queryType orderBy =
      stmtHead queryType orderBy ++ (fmt.decimal limit ++ (" OFFSET " ++ fmt.decimal offset)) := by
  unfold buildStmt stmtHead
  split_ifs <;> simp only [String.append_assoc]

set_option maxRecDepth 100000 in
/-- The ten heads a resolved filter and direction can give differ pairwise
at a position within both. -/
theorem stmtHead_separated :
    ∀ f ∈ ["", "select", "insert", "update", "delete"], ∀ d ∈ ["asc", "desc"],
    ∀ f' ∈ ["", "select", "insert", "update", "delete"], ∀ d' ∈ ["asc", "desc"],
      (stmtHead f d).data.take (min (stmtHead f d).data.length (stmtHead f' d').data.length) =
        (stmtHead f' d').data.take
          (min (stmtHead f d).data.length (stmtHead f' d').data.length) →
      f = f' ∧ d = d' := by
  decide

/-- On resolved values the statement text determines limit, offset, filter
and direction. -/
theorem buildStmt_injective (l o l' o' : Int) (f d f' d' : String)
    (hf : f ∈ ["", "select", "insert", "update", "delete"]) (hd : d ∈ ["asc", "desc"])
    (hf' : f' ∈ ["", "select", "insert", "update", "delete"]) (hd' : d' ∈ ["asc", "desc"])
    (h : buildStmt l o f d = buildStmt l' o' f' d') :
    l = l' ∧ o = o' ∧ f = f' ∧ d = d' := by
  rw [buildStmt_eq_stmtHead, buildStmt_eq_stmtHead] at h
  have hdata := congrArg String.data h
  simp only [String.data_append] at hdata
  obtain ⟨hff, hdd⟩ := stmtHead_separated f hf d hd f' hf' d' hd'
    (take_eq_of_append_eq _ _ _ _ hdata)
  subst hff hdd
  have htail := List.append_cancel_left hdata
  simp only [List.cons_append, List.nil_append] at htail
  obtain ⟨hl, hr⟩ := append_sep_inj ' ' _ _ _ _ (decimal_no_blank l) (decimal_no_blank l') htail
  have ho : (fmt.decimal o).data = (fmt.decimal o').data := by simpa using hr
  exact ⟨decimal_injective _ _ (String.ext hl), decimal_injective _ _ (String.ext ho),
    rfl, rfl⟩

/-- With a direction in place the statement text is the fixed SELECT, the
WHERE clause when the filter is not empty, ORDER BY, LIMIT and OFFSET. -/
theorem buildStmt_of_direction (limit offset : Int) (queryType orderBy : String)
    (hd : orderBy ∈ ["asc", "desc"]) :
    buildStmt limit offset queryType orderBy =
      "SELECT query, total_exec_time FROM public.pg_stat_statements"
        ++ (if queryType = "" then "" else " WHERE query ILIKE '" ++ queryType ++ "%'")
        ++ " ORDER BY total_exec_time " ++ orderBy
        ++ " LIMIT " ++ fmt.decimal limit ++ " OFFSET " ++ fmt.decimal offset := by
  have hob : orderBy ≠ "" := by
    simp only [List.mem_cons, List.mem_singleton, List.not_mem_nil, or_false] at hd
    rcases hd with h1 | h1 <;> rw [h1] <;> decide
  by_cases hqt : queryType = ""
  · simp only [buildStmt, hqt, hob, ne_eq, not_true_eq_false, not_false_eq_true, if_true,
      if_false, String.append_assoc, String.empty_append]
  · simp only [buildStmt, hqt, hob, ne_eq, not_true_eq_false, not_false_eq_true, if_true,
      if_false, String.append_assoc]

/-- C6, counterexample: the statement text changes with the limit, with the
offset and with the filter value, and the argument list of the call is
empty.  Page size 0 and page size 10 both resolve with no filter and
direction "desc" and give different texts; so do page 1 and page 2; so do
the filters "select" and "insert". -/
theorem C6_counterexample :
    ((extractQueryParams asciiToLower ⟨0, 0, "", ""⟩).err = none ∧
      (extractQueryParams asciiToLower ⟨0, 10, "", ""⟩).err = none ∧
      (extractQueryParams asciiToLower ⟨0, 0, "", ""⟩).queryType = "" ∧
      (extractQueryParams asciiToLower ⟨0, 10, "", ""⟩).queryType = "" ∧
      (extractQueryParams asciiToLower ⟨0, 0, "", ""⟩).orderBy = "desc" ∧
      (extractQueryParams asciiToLower ⟨0, 10, "", ""⟩).orderBy = "desc" ∧
      (Get asciiToLower (connReturning (rowsOf [])) ⟨0, 0, "", ""⟩).calls =
        [DbCall.Query ("SELECT query, total_exec_time FROM public.pg_stat_statements"
          ++ " ORDER BY total_exec_time desc LIMIT 50 OFFSET 0") []] ∧
      (Get asciiToLower (connReturning (rowsOf [])) ⟨0, 10, "", ""⟩).calls =
        [DbCall.Query ("SELECT query, total_exec_time FROM public.pg_stat_statements"
          ++ " ORDER BY total_exec_time desc LIMIT 10 OFFSET 0") []]) ∧
    ((extractQueryParams asciiToLower ⟨1, 0, "", ""⟩).err = none ∧
      (extractQueryParams asciiToLower ⟨2, 0, "", ""⟩).err = none ∧
      (Get asciiToLower (connReturning (rowsOf [])) ⟨1, 0, "", ""⟩).calls ≠
        (Get asciiToLower (connReturning (rowsOf [])) ⟨2, 0, "", ""⟩).calls) ∧
    ((extractQueryParams asciiToLower ⟨0, 0, "select", ""⟩).err = none ∧
      (extractQueryParams asciiToLower ⟨0, 0, "insert", ""⟩).err = none ∧
      (Get asciiToLower (connReturning (rowsOf [])) ⟨0, 0, "select", ""⟩).calls ≠
        (Get asciiToLower (connReturning (rowsOf [])) ⟨0, 0, "insert", ""⟩).calls) := by
  decide

/-- C6, amended: `Get` writes the filter, the limit and the offset into the
statement text and binds no argument.  Every QueryParams that resolves leads
to one `Query` call, with an empty argument list, whose text is the fixed
SELECT, then the WHERE clause holding the filter when there is one, then
ORDER BY with the direction, then LIMIT and OFFSET followed by the limit and
the offset in decimal; and two QueryParams that resolve lead to the same
statement text if and only if they resolve to the same limit, offset, filter
and direction. -/
theorem C6_statement_text_interpolated (lower : Char → Char) (conn₁ conn₂ : Conn)
    (p₁ p₂ : QueryParams)
    (h₁ : (extractQueryParams lower p₁).err = none)
    (h₂ : (extractQueryParams lower p₂).err = none) :
    (Get lower conn₁ p₁).calls =
      [DbCall.Query
        ("SELECT query, total_exec_time FROM public.pg_stat_statements"
          ++ (if (extractQueryParams lower p₁).queryType = "" then ""
              else " WHERE query ILIKE '" ++ (extractQueryParams lower p₁).queryType ++ "%'")
          ++ " ORDER BY total_exec_time " ++ (extractQueryParams lower p₁).orderBy
          ++ " LIMIT " ++ fmt.decimal (extractQueryParams lower p₁).limit
          ++ " OFFSET " ++ fmt.decimal (extractQueryParams lower p₁).offset) []] ∧
    ((Get lower conn₁ p₁).calls = (Get lower conn₂ p₂).calls ↔
      (extractQueryParams lower p₁).limit = (extractQueryParams lower p₂).limit ∧
      (extractQueryParams lower p₁).offset = (extractQueryParams lower p₂).offset ∧
      (extractQueryParams lower p₁).queryType = (extractQueryParams lower p₂).queryType ∧
      (extractQueryParams lower p₁).orderBy = (extractQueryParams lower p₂).orderBy) := by
  have hv₁ := filter_direction_of_err_none lower p₁ h₁
  have hv₂ := filter_direction_of_err_none lower p₂ h₂
  rw [Get_calls_of_resolved lower conn₁ p₁ h₁, Get_calls_of_resolved lower conn₂ p₂ h₂]
  refine ⟨?_, ?_, ?_⟩
  · rw [buildStmt_of_direction _ _ _ _ hv₁.2]
  · intro hcalls
    have htext : buildStmt (extractQueryParams lower p₁).limit
        (extractQueryParams lower p₁).offset (extractQueryParams lower p₁).queryType
        (extractQueryParams lower p₁).orderBy =
        buildStmt (extractQueryParams lower p₂).limit
        (extractQueryParams lower p₂).offset (extractQueryParams lower p₂).queryType
        (extractQueryParams lower p₂).orderBy := by
      simpa using hcalls
    exact buildStmt_injective _ _ _ _ _ _ _ _ hv₁.1 hv₁.2 hv₂.1 hv₂.2 htext
  · rintro ⟨hl, ho, hf, hd⟩
    rw [hl, ho, hf, hd]

/-- C6, witness: "select"/"asc" and "SELECT"/"ASC" with page 5 and page size
2 resolve to the same values and lead to the same call; no parameters and
page size 10 alone agree on the absence of a filter and on the direction,
and lead to different statement texts. -/
theorem C6_statement_text_interpolated_witness :
    (Get asciiToLower (connReturning (rowsOf [])) ⟨5, 2, "select", "asc"⟩).calls =
      (Get asciiToLower (connFailing "down") ⟨5, 2, "SELECT", "ASC"⟩).calls ∧
    (Get asciiToLower (connReturning (rowsOf [])) ⟨0, 0, "", ""⟩).calls ≠
      (Get asciiToLower (connReturning (rowsOf [])) ⟨0, 10, "", ""⟩).calls :=
  ⟨(C6_statement_text_interpolated asciiToLower (connReturning (rowsOf []))
      (connFailing "down") ⟨5, 2, "select", "asc"⟩ ⟨5, 2, "SELECT", "ASC"⟩
      (by decide) (by decide)).2.mpr (by decide),
    fun h => absurd
      ((C6_statement_text_interpolated asciiToLower (connReturning (rowsOf []))
        (connReturning (rowsOf [])) ⟨0, 0, "", ""⟩ ⟨0, 10, "", ""⟩
        (by decide) (by decide)).2.mp h).1 (by decide)⟩

/-- C7 (the code departs from the claim): over a cursor with one row whose
`Scan` returns the error "scan failed" and leaves both fields empty, and
whose `Err` is nil, `Get` returns one record with empty fields and a nil
error. -/
theorem C7_scan_error_is_dropped :
    (Get asciiToLower (connReturning ⟨[⟨"", "", some "scan failed"⟩], none⟩)
        ⟨0, 0, "", ""⟩).records = [⟨"", ""⟩] ∧
    (Get asciiToLower (connReturning ⟨[⟨"", "", some "scan failed"⟩], none⟩)
        ⟨0, 0, "", ""⟩).err = none := by
  decide

/-- C9: when the parameters resolve and `Query` answers with a cursor over
the rows r_1 .. r_n, every scan succeeding and no final error, `Get`
returns a nil error and exactly n records, the i-th made of the two columns
of r_i, in cursor order. -/
theorem C9_records_in_row_order (lower : Char → Char) (conn : Conn) (p : QueryParams)
    (rows : List (String × String))
    (h : (extractQueryParams lower p).err = none)
    (hc : conn (buildStmt (extractQueryParams lower p).limit
        (extractQueryParams lower p).offset (extractQueryParams lower p).queryType
        (extractQueryParams lower p).orderBy) [] = Except.ok (rowsOf rows)) :
    (Get lower conn p).err = none ∧
    (Get lower conn p).records = rows.map (fun r => ⟨r.1, r.2⟩) ∧
    (Get lower conn p).records.length = rows.length := by
  obtain ⟨hr, he⟩ := Get_of_rows_ok lower conn p (rowsOf rows) h hc rfl
  have hrec : (Get lower conn p).records = rows.map (fun r => ⟨r.1, r.2⟩) := by
    rw [hr]
    simp [rowsOf, scanOk, List.map_map, Function.comp_def]
  exact ⟨he, hrec, by rw [hrec, List.length_map]⟩

/-- C9, witness: the two fixture rows come back in their order, and a cursor
with no rows gives the empty sequence and no error. -/
theorem C9_records_in_row_order_witness :
    ((Get asciiToLower
        (connReturning (rowsOf [("select * from users", "14"), ("select * from users", "12")]))
        ⟨5, 2, "select", "asc"⟩).err = none ∧
      (Get asciiToLower
        (connReturning (rowsOf [("select * from users", "14"), ("select * from users", "12")]))
        ⟨5, 2, "select", "asc"⟩).records =
        [⟨"select * from users", "14"⟩, ⟨"select * from users", "12"⟩]) ∧
    ((Get asciiToLower (connReturning (rowsOf [])) ⟨0, 0, "", ""⟩).err = none ∧
      (Get asciiToLower (connReturning (rowsOf [])) ⟨0, 0, "", ""⟩).records = []) :=
  ⟨⟨(C9_records_in_row_order asciiToLower
        (connReturning (rowsOf [("select * from users", "14"), ("select * from users", "12")]))
        ⟨5, 2, "select", "asc"⟩
        [("select * from users", "14"), ("select * from users", "12")] (by decide) rfl).1,
      (C9_records_in_row_order asciiToLower
        (connReturning (rowsOf [("select * from users", "14"), ("select * from users", "12")]))
        ⟨5, 2, "select", "asc"⟩
        [("select * from users", "14"), ("select * from users", "12")] (by decide) rfl).2.1⟩,
    ⟨(C9_records_in_row_order asciiToLower (connReturning (rowsOf [])) ⟨0, 0, "", ""⟩ []
        (by decide) rfl).1,
      (C9_records_in_row_order asciiToLower (connReturning (rowsOf [])) ⟨0, 0, "", ""⟩ []
        (by decide) rfl).2.1⟩⟩

/-- C10: when the resolver returns the error e, `Get` returns no records and
the error e, and makes no call on the database handle. -/
theorem C10_resolver_error_before_database (lower : Char → Char) (conn : Conn)
    (p : QueryParams) (e : GoError)
    (h : (extractQueryParams lower p).err = some e) :
    (Get lower conn p).records = [] ∧ (Get lower conn p).err = some e ∧
    (Get lower conn p).calls = [] := by
  rw [Get_of_resolve_error lower conn p e h]
  exact ⟨rfl, rfl, rfl⟩

/-- C10, witness: the query type "bogus" over a handle that would answer
with rows. -/
theorem C10_resolver_error_before_database_witness :
    (Get asciiToLower (connReturning (rowsOf [("select 1", "3")]))
        ⟨0, 0, "bogus", ""⟩).records = [] ∧
    (Get asciiToLower (connReturning (rowsOf [("select 1", "3")]))
        ⟨0, 0, "bogus", ""⟩).err = some "invalid query_type: bogus" ∧
    (Get asciiToLower (connReturning (rowsOf [("select 1", "3")]))
        ⟨0, 0, "bogus", ""⟩).calls = [] :=
  C10_resolver_error_before_database asciiToLower (connReturning (rowsOf [("select 1", "3")]))
    ⟨0, 0, "bogus", ""⟩ "invalid query_type: bogus" (by decide)

end SlowQuery
